/-
Verification of the viewport-control handlers of `pdt_view.py`
(Precision Drawing Tools).

The module contains seven Blender operator handlers:
  * `PDT_OT_ViewRot.execute`     - absolute view rotation from Euler angles
  * `PDT_OT_vRotL/R/U/D.execute` - orbit left / right / up / down by a delta
  * `PDT_OT_vRoll.execute`       - roll by a delta
  * `PDT_OT_viso.execute`        - snap to a hard-coded isometric quaternion
  * `PDT_OT_Reset3DView.execute` - reset every 3D view to Blender defaults

The embedding below renders the host state the handlers touch (screen
areas, their `region_3d` viewport data, and the shared `pdt_pg` scene
property group) as an explicit `Context` record over exact rationals.
Calls into host operators (`bpy.ops.view3d.view_orbit` / `view_roll`)
are recorded in an event trace rather than interpreted: their semantics
belong to the host, not to this module.  The constant `math.pi` and the
helper `euler_to_quaternion` (imported from `pdt_functions`, outside
this module) are taken as parameters of the handlers that use them.
-/
import Mathlib

namespace PDTView

/-- A `mathutils.Quaternion`: components (w, x, y, z), modelled exactly
over `ℚ`. -/
structure Quat where
  w : ℚ
  x : ℚ
  y : ℚ
  z : ℚ
deriving DecidableEq, Repr

/-- `Quaternion * scalar` in `mathutils` scales every component. -/
def Quat.scale (q : Quat) (s : ℚ) : Quat :=
  ⟨q.w * s, q.x * s, q.y * s, q.z * s⟩

/-- A 4x4 view matrix, kept as rows of rationals; the handlers only ever
assign a whole literal matrix, never compute with one. -/
def Mat4 : Type := List (List ℚ)

instance : DecidableEq Mat4 := by
  unfold Mat4
  infer_instance

/-- The `region_3d` viewport data of a 3D view space: the three fields
this module reads or writes. -/
structure RegionView3D where
  view_rotation : Quat
  view_matrix : Mat4
  view_distance : ℚ
deriving DecidableEq

/-- A screen area: its `type` string and the `region_3d` of its (active
/ first) space.  Blender reports `region_3d` as possibly `None`, which
the reset handler checks for; we model it with `Option`. -/
structure Area where
  area_type : String
  region_3d : Option RegionView3D
deriving DecidableEq

/-- `pg.rotation_coords`, a host vector of three Euler angles in
degrees. -/
structure Vec3 where
  x : ℚ
  y : ℚ
  z : ℚ
deriving DecidableEq

/-- The shared scene property group `scene.pdt_pg`: the two inputs this
module reads. -/
structure PDTSceneProps where
  rotation_coords : Vec3
  vrotangle : ℚ
deriving DecidableEq

/-- The slice of `bpy.context` the handlers touch: the screen's area
list and the scene property group. -/
structure Context where
  areas : List Area
  pg : PDTSceneProps
deriving DecidableEq

/-- A call into a host-provided camera operator, recorded rather than
interpreted: `bpy.ops.view3d.view_orbit(angle=..., type=...)` or
`bpy.ops.view3d.view_roll(angle=..., type=...)`. -/
inductive HostCall where
  | view_orbit (angle : ℚ) (ty : String)
  | view_roll (angle : ℚ) (ty : String)
deriving DecidableEq

/-- The status set `{"FINISHED"}` every handler returns. -/
def FINISHED : List String := ["FINISHED"]

/-- Result of one `execute`: the mutated context, the trace of host
operator calls, and the returned status set. -/
structure ExecResult where
  ctx : Context
  calls : List HostCall
  status : List String
deriving DecidableEq

/-- `[a for a in context.screen.areas if a.type == "VIEW_3D"]`. -/
def view3dAreas (ctx : Context) : List Area :=
  ctx.areas.filter (fun a => a.area_type = "VIEW_3D")

/-- Assign `view_rotation` on `areas[0].spaces.active.region_3d`, where
`areas` is the VIEW_3D filter of the screen's area list: the write lands
on the first VIEW_3D area of the screen list.  The host guarantees
`region_3d` is present for a VIEW_3D space (the source writes through it
unchecked); the `Option` wrapper is traversed with `map`. -/
def setFirstView3dRotation (l : List Area) (q : Quat) : List Area :=
  match l with
  | [] => []
  | a :: rest =>
      if a.area_type = "VIEW_3D" then
        { a with region_3d :=
            a.region_3d.map (fun r => { r with view_rotation := q }) } :: rest
      else
        a :: setFirstView3dRotation rest q

/-- `PDT_OT_ViewRot.execute`: absolute view rotation.  `e2q` stands for
`euler_to_quaternion` (imported from `pdt_functions`, outside this
module) and `piv` for `math.pi`. -/
def PDT_OT_ViewRot_execute (e2q : ℚ → ℚ → ℚ → Quat) (piv : ℚ)
    (ctx : Context) : ExecResult :=
  let pg := ctx.pg
  let areas := view3dAreas ctx
  if areas.length > 0 then
    let roll_value := e2q
      (pg.rotation_coords.x * piv / 180)
      (pg.rotation_coords.y * piv / 180)
      (pg.rotation_coords.z * piv / 180)
    { ctx := { ctx with areas := setFirstView3dRotation ctx.areas roll_value },
      calls := [], status := FINISHED }
  else
    { ctx := ctx, calls := [], status := FINISHED }

/-- `PDT_OT_vRotL.execute`: orbit left. -/
def PDT_OT_vRotL_execute (piv : ℚ) (ctx : Context) : ExecResult :=
  let pg := ctx.pg
  let areas := view3dAreas ctx
  if areas.length > 0 then
    { ctx := ctx,
      calls := [HostCall.view_orbit (pg.vrotangle * piv / 180) "ORBITLEFT"],
      status := FINISHED }
  else
    { ctx := ctx, calls := [], status := FINISHED }

/-- `PDT_OT_vRotR.execute`: orbit right. -/
def PDT_OT_vRotR_execute (piv : ℚ) (ctx : Context) : ExecResult :=
  let pg := ctx.pg
  let areas := view3dAreas ctx
  if areas.length > 0 then
    { ctx := ctx,
      calls := [HostCall.view_orbit (pg.vrotangle * piv / 180) "ORBITRIGHT"],
      status := FINISHED }
  else
    { ctx := ctx, calls := [], status := FINISHED }

/-- `PDT_OT_vRotU.execute`: orbit up. -/
def PDT_OT_vRotU_execute (piv : ℚ) (ctx : Context) : ExecResult :=
  let pg := ctx.pg
  let areas := view3dAreas ctx
  if areas.length > 0 then
    { ctx := ctx,
      calls := [HostCall.view_orbit (pg.vrotangle * piv / 180) "ORBITUP"],
      status := FINISHED }
  else
    { ctx := ctx, calls := [], status := FINISHED }

/-- `PDT_OT_vRotD.execute`: orbit down. -/
def PDT_OT_vRotD_execute (piv : ℚ) (ctx : Context) : ExecResult :=
  let pg := ctx.pg
  let areas := view3dAreas ctx
  if areas.length > 0 then
    { ctx := ctx,
      calls := [HostCall.view_orbit (pg.vrotangle * piv / 180) "ORBITDOWN"],
      status := FINISHED }
  else
    { ctx := ctx, calls := [], status := FINISHED }

/-- `PDT_OT_vRoll.execute`: roll. -/
def PDT_OT_vRoll_execute (piv : ℚ) (ctx : Context) : ExecResult :=
  let pg := ctx.pg
  let areas := view3dAreas ctx
  if areas.length > 0 then
    { ctx := ctx,
      calls := [HostCall.view_roll (pg.vrotangle * piv / 180) "ANGLE"],
      status := FINISHED }
  else
    { ctx := ctx, calls := [], status := FINISHED }

/-- The hard-coded isometric quaternion `(0.8205, 0.4247, -0.1759,
-0.3399)`. -/
def isoQuat : Quat := ⟨0.8205, 0.4247, -0.1759, -0.3399⟩

/-- `PDT_OT_viso.execute`: isometric snap. -/
def PDT_OT_viso_execute (ctx : Context) : ExecResult :=
  let areas := view3dAreas ctx
  if areas.length > 0 then
    { ctx := { ctx with areas := setFirstView3dRotation ctx.areas isoQuat },
      calls := [], status := FINISHED }
  else
    { ctx := ctx, calls := [], status := FINISHED }

/-- `default_distance = 18` from the reset handler. -/
def default_distance : ℚ := 18

/-- `default_view_matrix` from the reset handler. -/
def default_view_matrix : Mat4 :=
  [ [0.41, -0.4017, 0.8188, 0.0],
    [0.912, 0.1936, -0.3617, 0.0],
    [-0.0133, 0.8959, 0.4458, 0.0],
    [0.0, 0.0, -14.9892, 1.0] ]

/-- The ordered lookup table `vlist` of the six canonical orientations,
each pre-scaled by 10,000,000.  Integral source constants
(`10000000.0000`, `5000000.0000`, `0.0000`, `-0.0000`, `-5000000.0000`)
are written as the integers they denote; `ℚ` has no signed zero, so
`-0.0000` is `0`.  The values are exactly those of the source. -/
def vlist : List (Quat × String) :=
  [ (⟨10000000, 0, 0, 0⟩, "TOP"),
    (⟨7071067.5, 7071067.5, 0, 0⟩, "FRONT"),
    (⟨5000000, 5000000, 5000000, 5000000⟩, "RIGHT"),
    (⟨0, 10000000, 0, 0⟩, "BOTTOM"),
    (⟨0, 0, 7071067.5, 7071067.5⟩, "BACK"),
    (⟨5000000, 5000000, -5000000, -5000000⟩, "LEFT") ]

/-- The classification loop of the reset handler: `view_mode` starts as
`"none"` and each matching table entry overwrites it. -/
def view_mode_of (table : List (Quat × String)) (view_rot : Quat) : String :=
  table.foldl (fun acc vvm => if view_rot = vvm.1 then vvm.2 else acc) "none"

/-- The per-region body of the reset handler's loop: classify
`view_rotation * 10000000` against `table`, then either reset only the
distance (canonical orientation) or replace the matrix and set the
distance to `default_distance + 3`. -/
def reset_region (table : List (Quat × String)) (r : RegionView3D) :
    RegionView3D :=
  let view_rot := r.view_rotation.scale 10000000
  let view_mode := view_mode_of table view_rot
  let r1 :=
    if view_mode ∈ ["TOP", "FRONT", "RIGHT", "BOTTOM", "BACK", "LEFT"] then
      { r with view_distance := default_distance }
    else r
  if view_mode = "none" then
    { r1 with view_matrix := default_view_matrix,
              view_distance := default_distance + 3 }
  else r1

/-- `PDT_OT_Reset3DView.execute`: the outer loop walks every screen
area, and for each VIEW_3D area whose `region_3d` is not `None` applies
the reset body; `view_mode` is re-initialised to `"none"` before each
area, so areas are processed independently. -/
def PDT_OT_Reset3DView_execute (ctx : Context) : ExecResult :=
  { ctx := { ctx with areas := ctx.areas.map (fun area =>
      if area.area_type = "VIEW_3D" then
        { area with region_3d := area.region_3d.map (reset_region vlist) }
      else area) },
    calls := [], status := FINISHED }


/-! ### Sample data for witnesses -/

/-- Neutral scene inputs for witness states. -/
def pg0 : PDTSceneProps := ⟨⟨10, 20, 30⟩, 45⟩

/-- A region looking straight down (TOP): its rotation scales to the
first `vlist` entry. -/
def wRegionTop : RegionView3D := ⟨⟨1, 0, 0, 0⟩, [], 50⟩

/-- A region in a non-canonical orientation: `(1,1,1,1)` scales to
`(10^7,10^7,10^7,10^7)`, matching no `vlist` entry. -/
def wRegionOff : RegionView3D := ⟨⟨1, 1, 1, 1⟩, [], 50⟩

/-- A VIEW_3D area with the TOP region. -/
def wAreaTop : Area := ⟨"VIEW_3D", some wRegionTop⟩

/-- A VIEW_3D area with the non-canonical region. -/
def wAreaOff : Area := ⟨"VIEW_3D", some wRegionOff⟩

/-- A non-3D area. -/
def wAreaOther : Area := ⟨"EMPTY", none⟩

/-- A screen with a single VIEW_3D area in TOP orientation. -/
def wctxTop : Context := ⟨[wAreaTop], pg0⟩

/-- A screen with a single VIEW_3D area in a non-canonical
orientation. -/
def wctxOff : Context := ⟨[wAreaOff], pg0⟩

/-- A screen whose first area is not a 3D view and whose second is. -/
def wctxSplit : Context := ⟨[wAreaOther, wAreaTop], pg0⟩

/-- A screen with no VIEW_3D area at all. -/
def wctxNo3d : Context := ⟨[wAreaOther], pg0⟩

/-- A screen with two VIEW_3D areas (after a non-3D one). -/
def wctxMulti : Context := ⟨[wAreaOther, wAreaTop, wAreaOff], pg0⟩

/-- A sample `euler_to_quaternion` stand-in for witnesses (the real one
lives outside this module; the theorems hold for every such function). -/
def wE2q : ℚ → ℚ → ℚ → Quat := fun a b c => ⟨a, b, c, 0⟩

/-! ### Helper lemmas -/

/-- If no area is a VIEW_3D one, the filtered list is empty. -/
theorem view3dAreas_eq_nil {ctx : Context}
    (h : ∀ a ∈ ctx.areas, a.area_type ≠ "VIEW_3D") : view3dAreas ctx = [] := by
  simp only [view3dAreas, List.filter_eq_nil_iff, decide_eq_true_eq]
  exact h

/-- If some area is a VIEW_3D one, the filtered list is nonempty. -/
theorem view3dAreas_length_pos {ctx : Context}
    (h : ∃ a ∈ ctx.areas, a.area_type = "VIEW_3D") :
    0 < (view3dAreas ctx).length := by
  obtain ⟨a, ha, hT⟩ := h
  have hmem : a ∈ view3dAreas ctx := List.mem_filter.mpr ⟨ha, by simp [hT]⟩
  exact List.length_pos.mpr (List.ne_nil_of_mem hmem)

/-- The rotation write of `ViewRot` / `viso` lands on the first VIEW_3D
area and leaves every other area untouched. -/
theorem setFirstView3dRotation_append (l₁ : List Area) (a : Area)
    (l₂ : List Area) (q : Quat)
    (h1 : ∀ b ∈ l₁, b.area_type ≠ "VIEW_3D") (ha : a.area_type = "VIEW_3D") :
    setFirstView3dRotation (l₁ ++ a :: l₂) q =
      l₁ ++ { a with region_3d :=
        a.region_3d.map (fun r => { r with view_rotation := q }) } :: l₂ := by
  induction l₁ with
  | nil => simp [setFirstView3dRotation, ha]
  | cons b t ih =>
      have hb := h1 b (by simp)
      simp only [List.cons_append, setFirstView3dRotation, if_neg hb]
      exact congrArg (fun l => b :: l) (ih (fun x hx => h1 x (by simp [hx])))

/-- The classification loop leaves the accumulator alone when nothing
matches. -/
theorem foldl_view_mode_no_match (table : List (Quat × String)) (q : Quat)
    (acc : String) (h : ∀ e ∈ table, q ≠ e.1) :
    table.foldl (fun acc vvm => if q = vvm.1 then vvm.2 else acc) acc = acc := by
  induction table generalizing acc with
  | nil => rfl
  | cons e t ih =>
      simp only [List.foldl_cons, if_neg (h e (by simp))]
      exact ih acc (fun x hx => h x (by simp [hx]))

/-- No match in the table: `view_mode` stays `"none"`. -/
theorem view_mode_of_eq_none (table : List (Quat × String)) (q : Quat)
    (h : ∀ e ∈ table, q ≠ e.1) : view_mode_of table q = "none" :=
  foldl_view_mode_no_match table q "none" h

/-- A region in a canonical orientation is reset only in its distance,
to 18. -/
theorem reset_region_matched (r : RegionView3D)
    (hm : ∃ e ∈ vlist, r.view_rotation.scale 10000000 = e.1) :
    reset_region vlist r = { r with view_distance := 18 } := by
  obtain ⟨e, he, hq⟩ := hm
  have h6 : view_mode_of vlist (r.view_rotation.scale 10000000) ∈
        ["TOP", "FRONT", "RIGHT", "BOTTOM", "BACK", "LEFT"] ∧
      view_mode_of vlist (r.view_rotation.scale 10000000) ≠ "none" := by
    fin_cases he <;> rw [hq] <;>
      refine ⟨?_, ?_⟩ <;> norm_num [view_mode_of, vlist, Quat.mk.injEq] <;>
        decide
  simp only [reset_region]
  rw [if_pos h6.1, if_neg h6.2]
  rfl

/-- A region in a non-canonical orientation gets the default matrix and
distance 21. -/
theorem reset_region_unmatched (r : RegionView3D)
    (hm : ∀ e ∈ vlist, r.view_rotation.scale 10000000 ≠ e.1) :
    reset_region vlist r =
      { r with view_matrix := default_view_matrix, view_distance := 21 } := by
  have hvm := view_mode_of_eq_none vlist (r.view_rotation.scale 10000000) hm
  have hnm6 : ¬ ("none" : String) ∈
      ["TOP", "FRONT", "RIGHT", "BOTTOM", "BACK", "LEFT"] := by decide
  simp only [reset_region]
  rw [hvm, if_neg hnm6, if_pos rfl]
  norm_num [RegionView3D.mk.injEq, default_distance]

/-- Index-wise description of the reset handler: every area is mapped
through the per-area body. -/
theorem reset_execute_get (ctx : Context) (j : ℕ) (hj : j < ctx.areas.length) :
    ∃ hj2 : j < (PDT_OT_Reset3DView_execute ctx).ctx.areas.length,
      (PDT_OT_Reset3DView_execute ctx).ctx.areas.get ⟨j, hj2⟩ =
        (if (ctx.areas.get ⟨j, hj⟩).area_type = "VIEW_3D"
         then { ctx.areas.get ⟨j, hj⟩ with region_3d :=
                  (ctx.areas.get ⟨j, hj⟩).region_3d.map (reset_region vlist) }
         else ctx.areas.get ⟨j, hj⟩) := by
  refine ⟨by simpa [PDT_OT_Reset3DView_execute] using hj, ?_⟩
  simp [PDT_OT_Reset3DView_execute, List.get_eq_getElem, List.getElem_map]

/-! ### Claim theorems -/

/-- C1: for every VIEW_3D area whose current orientation, scaled by
10,000,000, exactly equals one of the six canonical quaternion
constants, the reset-view handler changes only that area's zoom
distance, setting it to exactly 18, and leaves the view orientation and
view matrix (and everything else about the area) unchanged. -/
theorem reset_view_canonical_sets_only_distance (ctx : Context) (i : ℕ)
    (hi : i < ctx.areas.length) (r : RegionView3D)
    (hT : (ctx.areas.get ⟨i, hi⟩).area_type = "VIEW_3D")
    (hr : (ctx.areas.get ⟨i, hi⟩).region_3d = some r)
    (hm : ∃ e ∈ vlist, r.view_rotation.scale 10000000 = e.1) :
    ∃ hi2 : i < (PDT_OT_Reset3DView_execute ctx).ctx.areas.length,
      (PDT_OT_Reset3DView_execute ctx).ctx.areas.get ⟨i, hi2⟩ =
        { ctx.areas.get ⟨i, hi⟩ with
          region_3d := some { r with view_distance := 18 } } := by
  obtain ⟨hi2, hget⟩ := reset_execute_get ctx i hi
  refine ⟨hi2, ?_⟩
  rw [hget, if_pos hT, hr]
  simp only [Option.map_some']
  rw [reset_region_matched r hm]

/-- Witness for C1: a screen with one VIEW_3D area in TOP orientation
(rotation `(1,0,0,0)`, distance 50); the reset handler leaves rotation
and matrix alone and sets the distance to 18. -/
theorem reset_view_canonical_sets_only_distance_witness :
    (∃ e ∈ vlist, wRegionTop.view_rotation.scale 10000000 = e.1) ∧
    ∃ hi2 : 0 < (PDT_OT_Reset3DView_execute wctxTop).ctx.areas.length,
      (PDT_OT_Reset3DView_execute wctxTop).ctx.areas.get ⟨0, hi2⟩ =
        { wctxTop.areas.get ⟨0, by decide⟩ with
          region_3d := some { wRegionTop with view_distance := 18 } } := by
  have hm : ∃ e ∈ vlist, wRegionTop.view_rotation.scale 10000000 = e.1 :=
    ⟨(⟨10000000, 0, 0, 0⟩, "TOP"), by simp [vlist],
      by simp [wRegionTop, Quat.scale]⟩
  exact ⟨hm, reset_view_canonical_sets_only_distance wctxTop 0 (by decide)
    wRegionTop rfl rfl hm⟩

/-- C2: for every VIEW_3D area whose current orientation, scaled by
10,000,000, matches none of the six canonical constants, the reset-view
handler replaces that area's view matrix with the fixed default matrix
and sets its zoom distance to exactly 21. -/
theorem reset_view_noncanonical_resets_matrix (ctx : Context) (i : ℕ)
    (hi : i < ctx.areas.length) (r : RegionView3D)
    (hT : (ctx.areas.get ⟨i, hi⟩).area_type = "VIEW_3D")
    (hr : (ctx.areas.get ⟨i, hi⟩).region_3d = some r)
    (hm : ∀ e ∈ vlist, r.view_rotation.scale 10000000 ≠ e.1) :
    ∃ hi2 : i < (PDT_OT_Reset3DView_execute ctx).ctx.areas.length,
      (PDT_OT_Reset3DView_execute ctx).ctx.areas.get ⟨i, hi2⟩ =
        { ctx.areas.get ⟨i, hi⟩ with
          region_3d := some { r with
            view_matrix := [ [0.41, -0.4017, 0.8188, 0.0],
                             [0.912, 0.1936, -0.3617, 0.0],
                             [-0.0133, 0.8959, 0.4458, 0.0],
                             [0.0, 0.0, -14.9892, 1.0] ],
            view_distance := 21 } } := by
  obtain ⟨hi2, hget⟩ := reset_execute_get ctx i hi
  refine ⟨hi2, ?_⟩
  rw [hget, if_pos hT, hr]
  simp only [Option.map_some']
  rw [reset_region_unmatched r hm]
  rfl

/-- Witness for C2: a screen with one VIEW_3D area in a non-canonical
orientation; the reset handler installs the default matrix and distance
21. -/
theorem reset_view_noncanonical_resets_matrix_witness :
    (∀ e ∈ vlist, wRegionOff.view_rotation.scale 10000000 ≠ e.1) ∧
    ∃ hi2 : 0 < (PDT_OT_Reset3DView_execute wctxOff).ctx.areas.length,
      (PDT_OT_Reset3DView_execute wctxOff).ctx.areas.get ⟨0, hi2⟩ =
        { wctxOff.areas.get ⟨0, by decide⟩ with
          region_3d := some { wRegionOff with
            view_matrix := [ [0.41, -0.4017, 0.8188, 0.0],
                             [0.912, 0.1936, -0.3617, 0.0],
                             [-0.0133, 0.8959, 0.4458, 0.0],
                             [0.0, 0.0, -14.9892, 1.0] ],
            view_distance := 21 } } := by
  have hm : ∀ e ∈ vlist, wRegionOff.view_rotation.scale 10000000 ≠ e.1 := by
    simp [vlist, wRegionOff, Quat.scale, Quat.mk.injEq]
  exact ⟨hm, reset_view_noncanonical_resets_matrix wctxOff 0 (by decide)
    wRegionOff rfl rfl hm⟩

/-- Decomposition of the `ViewRot` handler: with a VIEW_3D area present,
the converted rotation lands on the first VIEW_3D area and every other
area is untouched. -/
theorem viewRot_execute_areas (e2q : ℚ → ℚ → ℚ → Quat) (piv : ℚ)
    (ctx : Context) (l₁ : List Area) (a : Area) (l₂ : List Area)
    (hsplit : ctx.areas = l₁ ++ a :: l₂)
    (hl : ∀ b ∈ l₁, b.area_type ≠ "VIEW_3D")
    (hT : a.area_type = "VIEW_3D") :
    (PDT_OT_ViewRot_execute e2q piv ctx).ctx.areas =
      l₁ ++ { a with region_3d := a.region_3d.map (fun r => { r with
        view_rotation := e2q (ctx.pg.rotation_coords.x * piv / 180)
          (ctx.pg.rotation_coords.y * piv / 180)
          (ctx.pg.rotation_coords.z * piv / 180) }) } :: l₂ := by
  have hpos : 0 < (view3dAreas ctx).length :=
    view3dAreas_length_pos ⟨a, by simp [hsplit], hT⟩
  simp only [PDT_OT_ViewRot_execute]
  rw [if_pos hpos]
  dsimp only
  rw [hsplit, setFirstView3dRotation_append l₁ a l₂ _ hl hT]

/-- Decomposition of the `viso` handler: the isometric quaternion lands
on the first VIEW_3D area and every other area is untouched. -/
theorem viso_execute_areas (ctx : Context) (l₁ : List Area) (a : Area)
    (l₂ : List Area)
    (hsplit : ctx.areas = l₁ ++ a :: l₂)
    (hl : ∀ b ∈ l₁, b.area_type ≠ "VIEW_3D")
    (hT : a.area_type = "VIEW_3D") :
    (PDT_OT_viso_execute ctx).ctx.areas =
      l₁ ++ { a with region_3d := a.region_3d.map (fun r => { r with
        view_rotation := isoQuat }) } :: l₂ := by
  have hpos : 0 < (view3dAreas ctx).length :=
    view3dAreas_length_pos ⟨a, by simp [hsplit], hT⟩
  simp only [PDT_OT_viso_execute]
  rw [if_pos hpos]
  dsimp only
  rw [hsplit, setFirstView3dRotation_append l₁ a l₂ _ hl hT]

/-- C3: with a VIEW_3D area present, the absolute-rotate handler sets
the viewport orientation to exactly
`euler_to_quaternion (x*pi/180) (y*pi/180) (z*pi/180)` of the input
triple `(x,y,z)`; `e2q` stands for the imported `euler_to_quaternion`
and `piv` for `math.pi`, both external to this module. -/
theorem viewrot_sets_orientation (e2q : ℚ → ℚ → ℚ → Quat) (piv : ℚ)
    (ctx : Context) (l₁ : List Area) (a : Area) (l₂ : List Area)
    (r : RegionView3D)
    (hsplit : ctx.areas = l₁ ++ a :: l₂)
    (hl : ∀ b ∈ l₁, b.area_type ≠ "VIEW_3D")
    (hT : a.area_type = "VIEW_3D")
    (hr : a.region_3d = some r) :
    (PDT_OT_ViewRot_execute e2q piv ctx).ctx.areas =
      l₁ ++ { a with region_3d := some { r with
        view_rotation := e2q (ctx.pg.rotation_coords.x * piv / 180)
          (ctx.pg.rotation_coords.y * piv / 180)
          (ctx.pg.rotation_coords.z * piv / 180) } } :: l₂ := by
  rw [viewRot_execute_areas e2q piv ctx l₁ a l₂ hsplit hl hT, hr]
  rfl

/-- Witness for C3: a screen whose second area is the first VIEW_3D one;
the handler writes the converted rotation into it. -/
theorem viewrot_sets_orientation_witness :
    (PDT_OT_ViewRot_execute wE2q (22/7) wctxSplit).ctx.areas =
      [wAreaOther] ++ { wAreaTop with region_3d := some { wRegionTop with
        view_rotation := wE2q (wctxSplit.pg.rotation_coords.x * (22/7) / 180)
          (wctxSplit.pg.rotation_coords.y * (22/7) / 180)
          (wctxSplit.pg.rotation_coords.z * (22/7) / 180) } } :: [] :=
  viewrot_sets_orientation wE2q (22/7) wctxSplit [wAreaOther] wAreaTop []
    wRegionTop rfl (by simp [wAreaOther]) rfl rfl

/-- C5: with a VIEW_3D area present, the isometric handler sets the
viewport orientation to exactly the literal quaternion
`(0.8205, 0.4247, -0.1759, -0.3399)`, whatever the prior state. -/
theorem viso_sets_iso_orientation (ctx : Context) (l₁ : List Area)
    (a : Area) (l₂ : List Area) (r : RegionView3D)
    (hsplit : ctx.areas = l₁ ++ a :: l₂)
    (hl : ∀ b ∈ l₁, b.area_type ≠ "VIEW_3D")
    (hT : a.area_type = "VIEW_3D")
    (hr : a.region_3d = some r) :
    (PDT_OT_viso_execute ctx).ctx.areas =
      l₁ ++ { a with region_3d := some { r with
        view_rotation := ⟨0.8205, 0.4247, -0.1759, -0.3399⟩ } } :: l₂ := by
  rw [viso_execute_areas ctx l₁ a l₂ hsplit hl hT, hr]
  rfl

/-- Witness for C5: the same split screen; the handler writes the
isometric quaternion into the first VIEW_3D area. -/
theorem viso_sets_iso_orientation_witness :
    (PDT_OT_viso_execute wctxSplit).ctx.areas =
      [wAreaOther] ++ { wAreaTop with region_3d := some { wRegionTop with
        view_rotation := ⟨0.8205, 0.4247, -0.1759, -0.3399⟩ } } :: [] :=
  viso_sets_iso_orientation wctxSplit [wAreaOther] wAreaTop [] wRegionTop
    rfl (by simp [wAreaOther]) rfl rfl

/-- C4: with a VIEW_3D area present, each orbit handler calls the host
orbit operation with angle exactly `delta * pi / 180` and its fixed
direction tag, and the roll handler calls the host roll operation with
that angle and tag ANGLE. -/
theorem orbit_roll_call_args (piv : ℚ) (ctx : Context)
    (h : ∃ a ∈ ctx.areas, a.area_type = "VIEW_3D") :
    (PDT_OT_vRotL_execute piv ctx).calls =
      [HostCall.view_orbit (ctx.pg.vrotangle * piv / 180) "ORBITLEFT"] ∧
    (PDT_OT_vRotR_execute piv ctx).calls =
      [HostCall.view_orbit (ctx.pg.vrotangle * piv / 180) "ORBITRIGHT"] ∧
    (PDT_OT_vRotU_execute piv ctx).calls =
      [HostCall.view_orbit (ctx.pg.vrotangle * piv / 180) "ORBITUP"] ∧
    (PDT_OT_vRotD_execute piv ctx).calls =
      [HostCall.view_orbit (ctx.pg.vrotangle * piv / 180) "ORBITDOWN"] ∧
    (PDT_OT_vRoll_execute piv ctx).calls =
      [HostCall.view_roll (ctx.pg.vrotangle * piv / 180) "ANGLE"] := by
  have hpos : 0 < (view3dAreas ctx).length := view3dAreas_length_pos h
  refine ⟨?_, ?_, ?_, ?_, ?_⟩
  · simp only [PDT_OT_vRotL_execute]
    rw [if_pos hpos]
  · simp only [PDT_OT_vRotR_execute]
    rw [if_pos hpos]
  · simp only [PDT_OT_vRotU_execute]
    rw [if_pos hpos]
  · simp only [PDT_OT_vRotD_execute]
    rw [if_pos hpos]
  · simp only [PDT_OT_vRoll_execute]
    rw [if_pos hpos]

/-- Witness for C4: a screen with one VIEW_3D area; all five handlers
pass `45 * (22/7) / 180` and their fixed tags to the host. -/
theorem orbit_roll_call_args_witness :
    (∃ a ∈ wctxTop.areas, a.area_type = "VIEW_3D") ∧
    (PDT_OT_vRotL_execute (22/7) wctxTop).calls =
      [HostCall.view_orbit (wctxTop.pg.vrotangle * (22/7) / 180) "ORBITLEFT"] ∧
    (PDT_OT_vRotR_execute (22/7) wctxTop).calls =
      [HostCall.view_orbit (wctxTop.pg.vrotangle * (22/7) / 180) "ORBITRIGHT"] ∧
    (PDT_OT_vRotU_execute (22/7) wctxTop).calls =
      [HostCall.view_orbit (wctxTop.pg.vrotangle * (22/7) / 180) "ORBITUP"] ∧
    (PDT_OT_vRotD_execute (22/7) wctxTop).calls =
      [HostCall.view_orbit (wctxTop.pg.vrotangle * (22/7) / 180) "ORBITDOWN"] ∧
    (PDT_OT_vRoll_execute (22/7) wctxTop).calls =
      [HostCall.view_roll (wctxTop.pg.vrotangle * (22/7) / 180) "ANGLE"] := by
  have h : ∃ a ∈ wctxTop.areas, a.area_type = "VIEW_3D" :=
    ⟨wAreaTop, by simp [wctxTop], rfl⟩
  exact ⟨h, orbit_roll_call_args (22/7) wctxTop h⟩

/-- C6: when no VIEW_3D area is present, every handler is a silent
no-op: the model state is returned unchanged, no host operation is
called, and (the handlers being total functions) no exception is
raised. -/
theorem handlers_noop_without_view3d (e2q : ℚ → ℚ → ℚ → Quat) (piv : ℚ)
    (ctx : Context) (h : ∀ a ∈ ctx.areas, a.area_type ≠ "VIEW_3D") :
    PDT_OT_ViewRot_execute e2q piv ctx = ⟨ctx, [], FINISHED⟩ ∧
    PDT_OT_vRotL_execute piv ctx = ⟨ctx, [], FINISHED⟩ ∧
    PDT_OT_vRotR_execute piv ctx = ⟨ctx, [], FINISHED⟩ ∧
    PDT_OT_vRotU_execute piv ctx = ⟨ctx, [], FINISHED⟩ ∧
    PDT_OT_vRotD_execute piv ctx = ⟨ctx, [], FINISHED⟩ ∧
    PDT_OT_vRoll_execute piv ctx = ⟨ctx, [], FINISHED⟩ ∧
    PDT_OT_viso_execute ctx = ⟨ctx, [], FINISHED⟩ ∧
    PDT_OT_Reset3DView_execute ctx = ⟨ctx, [], FINISHED⟩ := by
  have hnil : view3dAreas ctx = [] := view3dAreas_eq_nil h
  have hmap : ctx.areas.map (fun area =>
      if area.area_type = "VIEW_3D" then
        { area with region_3d := area.region_3d.map (reset_region vlist) }
      else area) = ctx.areas :=
    (List.map_congr_left (fun a ha => if_neg (h a ha))).trans
      (List.map_id ctx.areas)
  refine ⟨?_, ?_, ?_, ?_, ?_, ?_, ?_, ?_⟩
  · simp only [PDT_OT_ViewRot_execute]
    rw [hnil]
    rfl
  · simp only [PDT_OT_vRotL_execute]
    rw [hnil]
    rfl
  · simp only [PDT_OT_vRotR_execute]
    rw [hnil]
    rfl
  · simp only [PDT_OT_vRotU_execute]
    rw [hnil]
    rfl
  · simp only [PDT_OT_vRotD_execute]
    rw [hnil]
    rfl
  · simp only [PDT_OT_vRoll_execute]
    rw [hnil]
    rfl
  · simp only [PDT_OT_viso_execute]
    rw [hnil]
    rfl
  · simp only [PDT_OT_Reset3DView_execute]
    rw [hmap]

/-- Witness for C6: a screen holding only a non-3D area; every handler
returns the state unchanged with an empty host-call trace. -/
theorem handlers_noop_without_view3d_witness :
    (∀ a ∈ wctxNo3d.areas, a.area_type ≠ "VIEW_3D") ∧
    PDT_OT_ViewRot_execute wE2q (22/7) wctxNo3d = ⟨wctxNo3d, [], FINISHED⟩ ∧
    PDT_OT_vRotL_execute (22/7) wctxNo3d = ⟨wctxNo3d, [], FINISHED⟩ ∧
    PDT_OT_vRotR_execute (22/7) wctxNo3d = ⟨wctxNo3d, [], FINISHED⟩ ∧
    PDT_OT_vRotU_execute (22/7) wctxNo3d = ⟨wctxNo3d, [], FINISHED⟩ ∧
    PDT_OT_vRotD_execute (22/7) wctxNo3d = ⟨wctxNo3d, [], FINISHED⟩ ∧
    PDT_OT_vRoll_execute (22/7) wctxNo3d = ⟨wctxNo3d, [], FINISHED⟩ ∧
    PDT_OT_viso_execute wctxNo3d = ⟨wctxNo3d, [], FINISHED⟩ ∧
    PDT_OT_Reset3DView_execute wctxNo3d = ⟨wctxNo3d, [], FINISHED⟩ := by
  have h : ∀ a ∈ wctxNo3d.areas, a.area_type ≠ "VIEW_3D" := by
    simp [wctxNo3d, wAreaOther]
  exact ⟨h, handlers_noop_without_view3d wE2q (22/7) wctxNo3d h⟩

/-- C7: every handler, on every input, returns exactly the status set
containing the single element FINISHED. -/
theorem handlers_return_finished (e2q : ℚ → ℚ → ℚ → Quat) (piv : ℚ)
    (ctx : Context) :
    (PDT_OT_ViewRot_execute e2q piv ctx).status = ["FINISHED"] ∧
    (PDT_OT_vRotL_execute piv ctx).status = ["FINISHED"] ∧
    (PDT_OT_vRotR_execute piv ctx).status = ["FINISHED"] ∧
    (PDT_OT_vRotU_execute piv ctx).status = ["FINISHED"] ∧
    (PDT_OT_vRotD_execute piv ctx).status = ["FINISHED"] ∧
    (PDT_OT_vRoll_execute piv ctx).status = ["FINISHED"] ∧
    (PDT_OT_viso_execute ctx).status = ["FINISHED"] ∧
    (PDT_OT_Reset3DView_execute ctx).status = ["FINISHED"] := by
  refine ⟨?_, ?_, ?_, ?_, ?_, ?_, ?_, ?_⟩ <;>
    simp only [PDT_OT_ViewRot_execute, PDT_OT_vRotL_execute,
      PDT_OT_vRotR_execute, PDT_OT_vRotU_execute, PDT_OT_vRotD_execute,
      PDT_OT_vRoll_execute, PDT_OT_viso_execute,
      PDT_OT_Reset3DView_execute] <;>
    first
      | rfl
      | (split <;> rfl)

/-- C8: no handler writes the shared scene inputs: the property group
(and with it `rotation_coords` and `vrotangle`) is unchanged by every
handler. -/
theorem handlers_preserve_scene_inputs (e2q : ℚ → ℚ → ℚ → Quat)
    (piv : ℚ) (ctx : Context) :
    (PDT_OT_ViewRot_execute e2q piv ctx).ctx.pg = ctx.pg ∧
    (PDT_OT_vRotL_execute piv ctx).ctx.pg = ctx.pg ∧
    (PDT_OT_vRotR_execute piv ctx).ctx.pg = ctx.pg ∧
    (PDT_OT_vRotU_execute piv ctx).ctx.pg = ctx.pg ∧
    (PDT_OT_vRotD_execute piv ctx).ctx.pg = ctx.pg ∧
    (PDT_OT_vRoll_execute piv ctx).ctx.pg = ctx.pg ∧
    (PDT_OT_viso_execute ctx).ctx.pg = ctx.pg ∧
    (PDT_OT_Reset3DView_execute ctx).ctx.pg = ctx.pg := by
  refine ⟨?_, ?_, ?_, ?_, ?_, ?_, ?_, ?_⟩ <;>
    simp only [PDT_OT_ViewRot_execute, PDT_OT_vRotL_execute,
      PDT_OT_vRotR_execute, PDT_OT_vRotU_execute, PDT_OT_vRotD_execute,
      PDT_OT_vRoll_execute, PDT_OT_viso_execute,
      PDT_OT_Reset3DView_execute] <;>
    first
      | rfl
      | (split <;> rfl)

/-- C9: the six canonical quaternion constants of the lookup table are
pairwise distinct, so at most one entry can match a scaled orientation,
and both the classification and the per-region reset effect are the
same for any reordering of the table. -/
theorem reset_lookup_order_independent :
    List.Pairwise (fun e1 e2 => e1.1 ≠ e2.1) vlist ∧
    (∀ l, l.Perm vlist → ∀ q, view_mode_of l q = view_mode_of vlist q) ∧
    (∀ l, l.Perm vlist → ∀ r, reset_region l r = reset_region vlist r) := by
  have kf : ∀ x ∈ vlist, ∀ y ∈ vlist, x.1 = y.1 → x.2 = y.2 := by
    intro x hx y hy hxy
    fin_cases hx <;> fin_cases hy <;> first
      | rfl
      | (exfalso; rw [Quat.mk.injEq] at hxy; norm_num at hxy)
  have hperm : ∀ l, l.Perm vlist → ∀ q,
      view_mode_of l q = view_mode_of vlist q := by
    intro l hp q
    refine hp.foldl_eq' ?_ "none"
    intro x hx y hy z
    dsimp only
    split_ifs with h1 h2 h3
    · exact (kf x (hp.subset hx) y (hp.subset hy) (h2.symm.trans h1)).symm
    · rfl
    · rfl
    · rfl
  refine ⟨?_, hperm, ?_⟩
  · norm_num [vlist, List.pairwise_cons, Quat.mk.injEq]
  · intro l hp r
    simp only [reset_region, hperm l hp]

/-- Witness for C9: the reversed table classifies the TOP quaternion
the same way the original table does. -/
theorem reset_lookup_order_independent_witness :
    vlist.reverse.Perm vlist ∧
    view_mode_of vlist.reverse ⟨10000000, 0, 0, 0⟩ =
      view_mode_of vlist ⟨10000000, 0, 0, 0⟩ :=
  ⟨List.reverse_perm vlist,
    reset_lookup_order_independent.2.1 vlist.reverse
      (List.reverse_perm vlist) ⟨10000000, 0, 0, 0⟩⟩

/-- C10: with several VIEW_3D areas on the screen, the absolute-rotate
and isometric handlers write only into the first VIEW_3D area, leaving
every other area of the screen (including other VIEW_3D areas, their
orientation, matrix and distance) unchanged, whereas the reset-view
handler applies its per-region reset to every VIEW_3D area. -/
theorem viewrot_viso_first_area_reset_all (e2q : ℚ → ℚ → ℚ → Quat)
    (piv : ℚ) (ctx : Context) (l₁ : List Area) (a : Area) (l₂ : List Area)
    (hsplit : ctx.areas = l₁ ++ a :: l₂)
    (hl : ∀ b ∈ l₁, b.area_type ≠ "VIEW_3D")
    (hT : a.area_type = "VIEW_3D") :
    ((PDT_OT_ViewRot_execute e2q piv ctx).ctx.areas =
      l₁ ++ { a with region_3d := a.region_3d.map (fun r => { r with
        view_rotation := e2q (ctx.pg.rotation_coords.x * piv / 180)
          (ctx.pg.rotation_coords.y * piv / 180)
          (ctx.pg.rotation_coords.z * piv / 180) }) } :: l₂) ∧
    ((PDT_OT_viso_execute ctx).ctx.areas =
      l₁ ++ { a with region_3d := a.region_3d.map (fun r => { r with
        view_rotation := isoQuat }) } :: l₂) ∧
    (∀ j (hj : j < ctx.areas.length) (s : RegionView3D),
      (ctx.areas.get ⟨j, hj⟩).area_type = "VIEW_3D" →
      (ctx.areas.get ⟨j, hj⟩).region_3d = some s →
      ∃ hj2 : j < (PDT_OT_Reset3DView_execute ctx).ctx.areas.length,
        (PDT_OT_Reset3DView_execute ctx).ctx.areas.get ⟨j, hj2⟩ =
          { ctx.areas.get ⟨j, hj⟩ with
            region_3d := some (reset_region vlist s) }) := by
  refine ⟨viewRot_execute_areas e2q piv ctx l₁ a l₂ hsplit hl hT,
    viso_execute_areas ctx l₁ a l₂ hsplit hl hT, ?_⟩
  intro j hj s hjT hjr
  obtain ⟨hj2, hget⟩ := reset_execute_get ctx j hj
  refine ⟨hj2, ?_⟩
  rw [hget, if_pos hjT, hjr]
  rfl

/-- Witness for C10: a screen with a non-3D area followed by two VIEW_3D
areas; the rotate and isometric handlers touch only the first VIEW_3D
area, and the reset handler also processes the second one. -/
theorem viewrot_viso_first_area_reset_all_witness :
    (wctxMulti.areas = [wAreaOther] ++ wAreaTop :: [wAreaOff]) ∧
    ((PDT_OT_ViewRot_execute wE2q (22/7) wctxMulti).ctx.areas =
      [wAreaOther] ++ { wAreaTop with
        region_3d := wAreaTop.region_3d.map (fun r => { r with
          view_rotation :=
            wE2q (wctxMulti.pg.rotation_coords.x * (22/7) / 180)
              (wctxMulti.pg.rotation_coords.y * (22/7) / 180)
              (wctxMulti.pg.rotation_coords.z * (22/7) / 180) }) }
        :: [wAreaOff]) ∧
    ((PDT_OT_viso_execute wctxMulti).ctx.areas =
      [wAreaOther] ++ { wAreaTop with
        region_3d := wAreaTop.region_3d.map (fun r => { r with
          view_rotation := isoQuat }) } :: [wAreaOff]) ∧
    (∀ j (hj : j < wctxMulti.areas.length) (s : RegionView3D),
      (wctxMulti.areas.get ⟨j, hj⟩).area_type = "VIEW_3D" →
      (wctxMulti.areas.get ⟨j, hj⟩).region_3d = some s →
      ∃ hj2 : j < (PDT_OT_Reset3DView_execute wctxMulti).ctx.areas.length,
        (PDT_OT_Reset3DView_execute wctxMulti).ctx.areas.get ⟨j, hj2⟩ =
          { wctxMulti.areas.get ⟨j, hj⟩ with
            region_3d := some (reset_region vlist s) }) := by
  have hsplit : wctxMulti.areas = [wAreaOther] ++ wAreaTop :: [wAreaOff] := rfl
  have h10 := viewrot_viso_first_area_reset_all wE2q (22/7) wctxMulti
    [wAreaOther] wAreaTop [wAreaOff] hsplit (by simp [wAreaOther]) rfl
  exact ⟨hsplit, h10.1, h10.2.1, h10.2.2⟩

end PDTView
